import Mathlib

/-!
Verification of the trak Track Lifecycle & Reconciliation Engine
(package internal/ops, with helpers from internal/track, internal/db,
internal/git, internal/devbox, internal/github).

The operations of the engine shell out to collaborators (git, the devbox
CLI, the gh CLI, SQLite).  We embed each engine operation as a pure Lean
function over an environment record that fixes the outcome of every
collaborator call the operation makes, in program order.  Each execution
additionally returns the ordered list of collaborator calls it issued
(the event trace) and the writes it performed against the registry, so
that frame conditions and ordering properties can be stated.

Time is modelled in seconds (Go uses time.Time / time.Duration; all
comparisons in the source are scale-invariant, so seconds suffice).
Go errors are modelled as their message strings, built with the same
concatenations the source performs with fmt.Errorf.
-/

namespace Trak

/-! ### Data model (internal/db, internal/track, internal/github) -/

/-- db.TrackType: the kind of a track, "worktree" or "devbox". -/
inductive TrackType where
  | worktree
  | devbox
deriving DecidableEq, Repr

/-- db.Track: a persisted registry row. -/
structure Track where
  branch : String
  remoteURL : String
  headSHA : String
  type : TrackType
  path : Option String
  devboxName : Option String
  createdAt : Int
  lastAccessed : Option Int
deriving DecidableEq, Repr

/-- github.PR: a pull request as returned by the gh CLI wrapper. -/
structure PR where
  number : Nat
  branch : String
  state : String
  ciStatus : String
  reviewStatus : String
deriving DecidableEq, Repr

/-- track.GitStatus. -/
structure GitStatus where
  clean : Bool
  ahead : Bool
  behind : Bool
  aheadCount : Int
  behindCount : Int
deriving DecidableEq, Repr

/-- The Go zero value of track.GitStatus. -/
def GitStatus.zero : GitStatus :=
  { clean := false, ahead := false, behind := false, aheadCount := 0, behindCount := 0 }

/-- track.PRStatus. -/
structure PRStatus where
  number : Nat
  url : String
  state : String
  draft : Bool
deriving DecidableEq, Repr

/-- track.CIStatus. -/
structure CIStatus where
  passing : Bool
  pending : Bool
  failing : Bool
  url : String
deriving DecidableEq, Repr

/-- track.ReviewStatus. -/
structure ReviewStatus where
  approved : Bool
  changesRequested : Bool
  pending : Bool
  reviewerCount : Int
deriving DecidableEq, Repr

/-- track.TrackStatus: the derived, non-persisted status view. -/
structure TrackStatus where
  gitStatus : GitStatus
  pr : Option PRStatus
  ci : Option CIStatus
  review : Option ReviewStatus
  isStale : Bool
  shaMismatch : Bool
deriving DecidableEq, Repr

/-- The Go zero value of track.TrackStatus (status := track.TrackStatus{}). -/
def TrackStatus.zero : TrackStatus :=
  { gitStatus := GitStatus.zero, pr := none, ci := none, review := none,
    isStale := false, shaMismatch := false }

/-! ### Slug generation (internal/track/slug.go) -/

/-- Characters kept by the regex [^a-zA-Z0-9-]+ deletion in track.Slugify. -/
def isSlugAllowed (c : Char) : Bool :=
  ('a' ≤ c && c ≤ 'z') || ('A' ≤ c && c ≤ 'Z') || ('0' ≤ c && c ≤ '9') || c == '-'

/-- Collapse runs of consecutive hyphens to a single hyphen
(the -+ regex replacement in track.Slugify). -/
def collapseHyphens : List Char → List Char
  | [] => []
  | [c] => [c]
  | c1 :: c2 :: rest =>
    if c1 == '-' && c2 == '-' then collapseHyphens (c2 :: rest)
    else c1 :: collapseHyphens (c2 :: rest)

/-- Trim leading and trailing hyphens (strings.Trim(slug, "-")). -/
def trimHyphens (l : List Char) : List Char :=
  ((l.dropWhile (fun c => c == '-')).reverse.dropWhile (fun c => c == '-')).reverse

/-- track.Slugify: lowercase, map separators to hyphens, delete other
non-alphanumerics, collapse hyphen runs, trim hyphens. -/
def slugify (branch : String) : String :=
  let lowered := branch.toList.map Char.toLower
  let hyphened := lowered.map (fun c =>
    if c ∈ ['/', '_', ' ', '.', '@', '#'] then '-' else c)
  let filtered := hyphened.filter isSlugAllowed
  String.mk (trimHyphens (collapseHyphens filtered))

/-- track.GenerateSlug: slug of the branch plus the 7-character short SHA. -/
def generateSlug (branch sha : String) : String :=
  let slug := slugify branch
  let shortSHA := if sha.length > 7 then String.mk (sha.toList.take 7) else sha
  if shortSHA = "" then slug else slug ++ "-" ++ shortSHA

/-! ### Event traces

Every collaborator call an engine operation issues is recorded, in
program order.  Events are tagged by the collaborator they belong to so
frame conditions (claim C5) can quantify over whole collaborators. -/

/-- One collaborator call issued by an engine operation. -/
inductive Event where
  | dbGetTrack
  | dbInsertTrack
  | dbDeleteTrack
  | dbUpdateHeadSHA (sha : String)
  | gitFetch
  | gitGetDefaultBranch
  | gitGetBranchSHA (ref : String)
  | gitCreateBranch (base : String)
  | gitWorktreeAdd (path : String)
  | gitWorktreeRemove (path : String)
  | gitWorktreePrune
  | gitRebase
  | gitPushForce
  | gitPushDelete
  | gitGetHeadSHA
  | gitIsDirty
  | gitAheadBehind
  | devboxExistsCall
  | devboxCreate (name : String)
  | devboxDelete (name : String)
  | ghGetPRForBranch
  | ghCreatePR
deriving DecidableEq, Repr

/-- True for calls into the VersionControl collaborator (internal/git). -/
def Event.isVersionControl : Event → Bool
  | .gitFetch | .gitGetDefaultBranch | .gitGetBranchSHA _ | .gitCreateBranch _
  | .gitWorktreeAdd _ | .gitWorktreeRemove _ | .gitWorktreePrune | .gitRebase
  | .gitPushForce | .gitPushDelete | .gitGetHeadSHA | .gitIsDirty
  | .gitAheadBehind => true
  | _ => false

/-- True for calls into the CodeReviewHost collaborator (internal/github). -/
def Event.isCodeReviewHost : Event → Bool
  | .ghGetPRForBranch | .ghCreatePR => true
  | _ => false

/-- The events of l that occur strictly before the first occurrence of e. -/
def eventsBefore (e : Event) (l : List Event) : List Event :=
  l.takeWhile (fun x => !(x == e))

/-! ### Sync-Track (Ops.SyncTrack) -/

/-- ops.SyncResult. -/
structure SyncResult where
  rebased : Bool
  pushed : Bool
  prCreated : Bool
  prNumber : Nat
  hasConflicts : Bool
  conflictsPath : String
deriving DecidableEq, Repr

/-- The Go zero value of ops.SyncResult (result := &SyncResult{}). -/
def SyncResult.zero : SyncResult :=
  { rebased := false, pushed := false, prCreated := false, prNumber := 0,
    hasConflicts := false, conflictsPath := "" }

/-- The error exits of Ops.SyncTrack, one per return-error site. -/
inductive SyncError where
  | getTrackFailed
  | notTracked
  | worktreeHasNoPath
  | unsupportedForKind
  | fetchFailed
  | defaultBranchFailed
  | rebaseFailed
  | pushFailed
deriving DecidableEq, Repr

/-- Outcomes of the collaborator calls Ops.SyncTrack makes, in program
order.  rebase returns .ok conflicts on a completed call (conflicts true
means the rebase stopped on conflicts) and .error on a hard tooling
failure, mirroring git.Rebase's (bool, error) pair. -/
structure SyncEnv where
  getTrack : Except String (Option Track)
  fetchOK : Bool
  getDefaultBranch : Except String String
  rebase : Except String Bool
  pushForceOK : Bool
  getHeadSHA : Except String String
  updateHeadSHAOK : Bool
  getPRForBranch : Except String (Option PR)
  createPR : Except String Nat
deriving Repr

/-- One execution of Ops.SyncTrack: its return value, the collaborator
calls it issued in order, and the head-SHA value it successfully wrote
to the registry (none when no write happened or the write failed). -/
structure SyncExec where
  result : Except SyncError SyncResult
  events : List Event
  headWrite : Option String
deriving Repr

/-- Ops.SyncTrack, translated statement by statement from the source. -/
def syncTrack (env : SyncEnv) : SyncExec :=
  match env.getTrack with
  | .error _ => ⟨.error .getTrackFailed, [.dbGetTrack], none⟩
  | .ok none => ⟨.error .notTracked, [.dbGetTrack], none⟩
  | .ok (some trk) =>
    match trk.type with
    | .devbox => ⟨.error .unsupportedForKind, [.dbGetTrack], none⟩
    | .worktree =>
      match trk.path with
      | none => ⟨.error .worktreeHasNoPath, [.dbGetTrack], none⟩
      | some workDir =>
        let ev1 := [Event.dbGetTrack, Event.gitFetch]
        if !env.fetchOK then ⟨.error .fetchFailed, ev1, none⟩
        else
          let ev2 := ev1 ++ [Event.gitGetDefaultBranch]
          match env.getDefaultBranch with
          | .error _ => ⟨.error .defaultBranchFailed, ev2, none⟩
          | .ok _defaultBranch =>
            let ev3 := ev2 ++ [Event.gitRebase]
            match env.rebase with
            | .error _ => ⟨.error .rebaseFailed, ev3, none⟩
            | .ok true =>
              ⟨.ok { SyncResult.zero with hasConflicts := true, conflictsPath := workDir },
               ev3, none⟩
            | .ok false =>
              let ev4 := ev3 ++ [Event.gitPushForce]
              if !env.pushForceOK then ⟨.error .pushFailed, ev4, none⟩
              else
                let evw : List Event × Option String :=
                  match env.getHeadSHA with
                  | .ok newSHA =>
                    (ev4 ++ [Event.gitGetHeadSHA, Event.dbUpdateHeadSHA newSHA],
                     if env.updateHeadSHAOK then some newSHA else none)
                  | .error _ => (ev4 ++ [Event.gitGetHeadSHA], none)
                let base := { SyncResult.zero with rebased := true, pushed := true }
                match env.getPRForBranch with
                | .error _ => ⟨.ok base, evw.1 ++ [Event.ghGetPRForBranch], evw.2⟩
                | .ok (some _pr) => ⟨.ok base, evw.1 ++ [Event.ghGetPRForBranch], evw.2⟩
                | .ok none =>
                  match env.createPR with
                  | .error _ =>
                    ⟨.ok base, evw.1 ++ [Event.ghGetPRForBranch, Event.ghCreatePR], evw.2⟩
                  | .ok prNum =>
                    ⟨.ok { base with prCreated := true, prNumber := prNum },
                     evw.1 ++ [Event.ghGetPRForBranch, Event.ghCreatePR], evw.2⟩

/-! ### Delete-Track (Ops.DeleteTrack) -/

/-- The error exits of Ops.DeleteTrack, one per return-error site. -/
inductive DeleteError where
  | getTrackFailed
  | notTracked
  | removeWorktreeFailed
  | deleteDevboxFailed
  | dbDeleteFailed
deriving DecidableEq, Repr

/-- Outcomes of the collaborator calls Ops.DeleteTrack makes.
worktreePrune and pushDelete failures are ignored by the source, so
only the success booleans that influence control flow are modelled. -/
structure DeleteEnv where
  getTrack : Except String (Option Track)
  worktreeRemoveOK : Bool
  devboxDeleteOK : Bool
  pushDeleteOK : Bool
  dbDeleteOK : Bool
deriving Repr

/-- One execution of Ops.DeleteTrack: return value and ordered trace. -/
structure DeleteExec where
  result : Except DeleteError Unit
  events : List Event
deriving Repr

/-- Ops.DeleteTrack, translated statement by statement from the source.
deleteRemote is the deleteRemote parameter. -/
def deleteTrack (env : DeleteEnv) (deleteRemote : Bool) : DeleteExec :=
  match env.getTrack with
  | .error _ => ⟨.error .getTrackFailed, [.dbGetTrack]⟩
  | .ok none => ⟨.error .notTracked, [.dbGetTrack]⟩
  | .ok (some trk) =>
    let deprov : List Event × Option DeleteError :=
      match trk.type with
      | .worktree =>
        match trk.path with
        | some p =>
          if env.worktreeRemoveOK then
            ([Event.gitWorktreeRemove p, Event.gitWorktreePrune], none)
          else
            ([Event.gitWorktreeRemove p], some DeleteError.removeWorktreeFailed)
        | none => ([], none)
      | .devbox =>
        match trk.devboxName with
        | some n =>
          if env.devboxDeleteOK then ([Event.devboxDelete n], none)
          else ([Event.devboxDelete n], some DeleteError.deleteDevboxFailed)
        | none => ([], none)
    match deprov.2 with
    | some e => ⟨.error e, Event.dbGetTrack :: deprov.1⟩
    | none =>
      let ev1 := Event.dbGetTrack :: deprov.1
      let ev2 := if deleteRemote then ev1 ++ [Event.gitPushDelete] else ev1
      if env.dbDeleteOK then ⟨.ok (), ev2 ++ [Event.dbDeleteTrack]⟩
      else ⟨.error .dbDeleteFailed, ev2 ++ [Event.dbDeleteTrack]⟩

/-- The deprovision step Ops.DeleteTrack will run for a given track:
the collaborator-success flag it consults, the event it issues, and
whether it runs at all (tracks of a kind with no locator skip it). -/
def deprovisionOK (env : DeleteEnv) (trk : Track) : Bool :=
  match trk.type with
  | .worktree => env.worktreeRemoveOK
  | .devbox => env.devboxDeleteOK

/-- The deprovision event Ops.DeleteTrack issues for a track, when its
kind-specific locator is present. -/
def Track.deprovisionEvent (trk : Track) : Option Event :=
  match trk.type with
  | .worktree => trk.path.map Event.gitWorktreeRemove
  | .devbox => trk.devboxName.map Event.devboxDelete

/-! ### Create-Track (Ops.NewTrackWorktree, Ops.NewTrackDevbox)

Go errors are modelled as the message strings built by fmt.Errorf; the
%w-wrapped cause is the string carried by the failing oracle. -/

/-- One execution of a create operation: the returned error message (or
unit on success), the ordered trace, and the row the operation inserted
into the registry (none when nothing was persisted). -/
structure CreateExec where
  result : Except String Unit
  events : List Event
  inserted : Option Track
deriving Repr

/-- Outcomes of the collaborator calls Ops.NewTrackWorktree makes, in
program order.  branchSHA1 is the git.GetBranchSHA(repoPath, branch)
existence probe; remoteBranchSHA probes origin/branch; branchSHA2 is the
second git.GetBranchSHA(repoPath, branch) call that supplies the SHA
used for the worktree path.  worktreeRemove is the compensation call
made when the registry insert fails; the source discards its result. -/
structure CreateWtEnv where
  remote : String
  worktreeBase : String
  now : Int
  fetch : Except String Unit
  getDefaultBranch : Except String String
  branchSHA1 : Except String String
  remoteBranchSHA : Except String String
  createBranch : Except String Unit
  branchSHA2 : Except String String
  mkdirAll : Except String Unit
  worktreeAdd : Except String Unit
  insertTrack : Except String Unit
  worktreeRemove : Except String Unit
deriving Repr

/-- Ops.NewTrackWorktree, translated statement by statement from the
source.  The worktree path is filepath.Join(worktreeBase, slug). -/
def newTrackWorktree (env : CreateWtEnv) (branch : String) : CreateExec :=
  match env.fetch with
  | .error e => ⟨.error ("failed to fetch from remote: " ++ e), [.gitFetch], none⟩
  | .ok _ =>
  match env.getDefaultBranch with
  | .error e =>
    ⟨.error ("failed to get default branch: " ++ e),
     [.gitFetch, .gitGetDefaultBranch], none⟩
  | .ok defaultBranch =>
  let ev1 := [Event.gitFetch, Event.gitGetDefaultBranch,
              Event.gitGetBranchSHA branch, Event.gitGetBranchSHA ("origin/" ++ branch)]
  let branchExists := env.branchSHA1.isOk
  let remoteBranchExists := env.remoteBranchSHA.isOk
  let createStep : List Event × Option String :=
    if branchExists then ([], none)
    else if remoteBranchExists then
      match env.createBranch with
      | .ok _ => ([Event.gitCreateBranch ("origin/" ++ branch)], none)
      | .error e =>
        ([Event.gitCreateBranch ("origin/" ++ branch)],
         some ("failed to create branch from remote: " ++ e))
    else
      match env.createBranch with
      | .ok _ => ([Event.gitCreateBranch ("origin/" ++ defaultBranch)], none)
      | .error e =>
        ([Event.gitCreateBranch ("origin/" ++ defaultBranch)],
         some ("failed to create branch: " ++ e))
  match createStep.2 with
  | some msg => ⟨.error msg, ev1 ++ createStep.1, none⟩
  | none =>
  let ev2 := ev1 ++ createStep.1 ++ [Event.gitGetBranchSHA branch]
  match env.branchSHA2 with
  | .error e => ⟨.error ("failed to get branch SHA: " ++ e), ev2, none⟩
  | .ok sha =>
  let slug := generateSlug branch sha
  let worktreePath := env.worktreeBase ++ "/" ++ slug
  match env.mkdirAll with
  | .error e => ⟨.error ("failed to create worktree base directory: " ++ e), ev2, none⟩
  | .ok _ =>
  match env.worktreeAdd with
  | .error e =>
    ⟨.error ("failed to add worktree: " ++ e),
     ev2 ++ [Event.gitWorktreeAdd worktreePath], none⟩
  | .ok _ =>
  let ev3 := ev2 ++ [Event.gitWorktreeAdd worktreePath]
  let trackRecord : Track :=
    { branch := branch, remoteURL := env.remote, headSHA := sha,
      type := TrackType.worktree, path := some worktreePath, devboxName := none,
      createdAt := env.now, lastAccessed := some env.now }
  match env.insertTrack with
  | .ok _ => ⟨.ok (), ev3 ++ [Event.dbInsertTrack], some trackRecord⟩
  | .error e =>
    ⟨.error ("failed to record track in database: " ++ e),
     ev3 ++ [Event.dbInsertTrack, Event.gitWorktreeRemove worktreePath], none⟩

/-- Outcomes of the collaborator calls Ops.NewTrackDevbox makes, in
program order.  fetch and remoteBranchSHA failures are non-fatal in the
source (the SHA falls back to the empty string).  devboxDelete is the
compensation call made when the registry insert fails; the source
discards its result. -/
structure CreateDbEnv where
  remote : String
  now : Int
  devboxExistsResult : Except String Bool
  devboxCreate : Except String Unit
  fetch : Except String Unit
  remoteBranchSHA : Except String String
  insertTrack : Except String Unit
  devboxDelete : Except String Unit
deriving Repr

/-- Ops.NewTrackDevbox, translated statement by statement from the
source.  git.GetBranchSHA returns the empty string alongside its error,
so sha is "" when the origin/branch probe fails, and the source then
substitutes the sentinel "unknown". -/
def newTrackDevbox (env : CreateDbEnv) (branch : String) : CreateExec :=
  let devboxName := slugify branch
  match env.devboxExistsResult with
  | .error e =>
    ⟨.error ("failed to check if devbox exists: " ++ e), [.devboxExistsCall], none⟩
  | .ok true =>
    ⟨.error ("devbox " ++ devboxName ++ " already exists"), [.devboxExistsCall], none⟩
  | .ok false =>
  match env.devboxCreate with
  | .error e =>
    ⟨.error ("failed to create devbox: " ++ e),
     [.devboxExistsCall, .devboxCreate devboxName], none⟩
  | .ok _ =>
  let ev1 := [Event.devboxExistsCall, Event.devboxCreate devboxName, Event.gitFetch,
              Event.gitGetBranchSHA ("origin/" ++ branch)]
  let sha0 := match env.remoteBranchSHA with | .ok s => s | .error _ => ""
  let sha := if sha0 = "" then "unknown" else sha0
  let trackRecord : Track :=
    { branch := branch, remoteURL := env.remote, headSHA := sha,
      type := TrackType.devbox, path := none, devboxName := some devboxName,
      createdAt := env.now, lastAccessed := some env.now }
  match env.insertTrack with
  | .ok _ => ⟨.ok (), ev1 ++ [Event.dbInsertTrack], some trackRecord⟩
  | .error e =>
    ⟨.error ("failed to record track in database: " ++ e),
     ev1 ++ [Event.dbInsertTrack, Event.devboxDelete devboxName], none⟩

/-- True when needle occurs at the head of hay. -/
def startsWithChars : List Char → List Char → Bool
  | [], _ => true
  | _ :: _, [] => false
  | n :: ns, h :: hs => n == h && startsWithChars ns hs

/-- True when needle occurs contiguously anywhere in hay. -/
def substrChars (needle hay : List Char) : Bool :=
  startsWithChars needle hay ||
    match hay with
    | [] => false
    | _ :: hs => substrChars needle hs

/-- True when needle occurs as a contiguous substring of hay; used to ask
whether an error message reports a resource locator. -/
def mentions (hay needle : String) : Bool :=
  substrChars needle.toList hay.toList

/-! ### Status-Refresh (Ops.RefreshTrackStatus) -/

/-- The fixed staleness threshold: 7 * 24 * time.Hour, in seconds. -/
def staleDuration : Int := 7 * 24 * 60 * 60

/-- Outcomes of the collaborator calls Ops.RefreshTrackStatus makes, in
program order, plus the current time used by time.Since. -/
structure StatusEnv where
  repoPath : String
  remote : String
  now : Int
  isDirty : Except String Bool
  getDefaultBranch : Except String String
  aheadBehind : Except String (Int × Int)
  getHeadSHA : Except String String
  updateHeadSHAOK : Bool
  getPRForBranch : Except String (Option PR)
deriving Repr

/-- One execution of Ops.RefreshTrackStatus: the status it returns, the
error it returns alongside it (the source always returns nil), the
ordered trace, and the head-SHA value it successfully wrote to the
registry (none when no write happened or the write failed). -/
structure StatusExec where
  status : TrackStatus
  errOut : Option String
  events : List Event
  headWrite : Option String
deriving Repr

/-- The working directory Ops.RefreshTrackStatus inspects: the track
path for worktree tracks (falling back to the repository path when the
row has none) and "" for devbox tracks, which skips the whole
local-git section. -/
def statusWorkDir (env : StatusEnv) (trk : Track) : String :=
  match trk.type with
  | .worktree => match trk.path with | some p => p | none => env.repoPath
  | .devbox => ""

/-- Ops.RefreshTrackStatus, translated statement by statement from the
source. -/
def refreshTrackStatus (env : StatusEnv) (trk : Track) : StatusExec :=
  let workDir : String := statusWorkDir env trk
  let gitPart : GitStatus × Bool × List Event × Option String :=
    if workDir ≠ "" then
      let gs1 :=
        match env.isDirty with
        | .ok dirty => { GitStatus.zero with clean := !dirty }
        | .error _ => GitStatus.zero
      let gs2 :=
        match env.getDefaultBranch with
        | .ok _defaultBranch =>
          match env.aheadBehind with
          | .ok (ahead, behind) =>
            { gs1 with ahead := ahead > 0, behind := behind > 0,
                       aheadCount := ahead, behindCount := behind }
          | .error _ => gs1
        | .error _ => gs1
      let ev0 := [Event.gitIsDirty, Event.gitGetDefaultBranch, Event.gitAheadBehind,
                  Event.gitGetHeadSHA]
      match env.getHeadSHA with
      | .ok currentSHA =>
        if trk.headSHA ≠ "" ∧ trk.headSHA ≠ "unknown" then
          if currentSHA ≠ trk.headSHA then
            (gs2, true, ev0 ++ [Event.dbUpdateHeadSHA currentSHA],
             if env.updateHeadSHAOK then some currentSHA else none)
          else (gs2, false, ev0, none)
        else (gs2, false, ev0, none)
      | .error _ => (gs2, false, ev0, none)
    else (GitStatus.zero, false, [], none)
  let reviewPart : Option PRStatus × Option CIStatus × Option ReviewStatus :=
    match env.getPRForBranch with
    | .ok (some pr) =>
      (some { number := pr.number,
              url := "https://github.com/" ++ env.remote ++ "/pull/" ++ toString pr.number,
              state := pr.state, draft := false },
       some { passing := pr.ciStatus == "success", pending := pr.ciStatus == "pending",
              failing := pr.ciStatus == "failure", url := "" },
       some { approved := pr.reviewStatus == "approved",
              changesRequested := pr.reviewStatus == "changes_requested",
              pending := pr.reviewStatus == "pending", reviewerCount := 0 })
    | .ok none => (none, none, none)
    | .error _ => (none, none, none)
  let isStale : Bool :=
    match trk.lastAccessed with
    | some la => if env.now - la > staleDuration then true else false
    | none => false
  { status :=
      { gitStatus := gitPart.1, shaMismatch := gitPart.2.1,
        pr := reviewPart.1, ci := reviewPart.2.1, review := reviewPart.2.2,
        isStale := isStale },
    errOut := none,
    events := gitPart.2.2.1 ++ [Event.ghGetPRForBranch],
    headWrite := gitPart.2.2.2 }

/-! ### Concrete fixtures used by witnesses and counterexamples -/

/-- A devbox-kind registry row. -/
def devboxTrackEx : Track :=
  { branch := "feat", remoteURL := "owner/repo", headSHA := "unknown",
    type := .devbox, path := none, devboxName := some "feat",
    createdAt := 0, lastAccessed := none }

/-- A worktree-kind registry row. -/
def worktreeTrackEx : Track :=
  { branch := "feat", remoteURL := "owner/repo", headSHA := "aaa111",
    type := .worktree, path := some "/wt/feat-aaa111", devboxName := none,
    createdAt := 0, lastAccessed := some 0 }

/-- A sync environment in which every collaborator call succeeds. -/
def syncEnvOK : SyncEnv :=
  { getTrack := .ok (some worktreeTrackEx), fetchOK := true,
    getDefaultBranch := .ok "main", rebase := .ok false, pushForceOK := true,
    getHeadSHA := .ok "bbb222", updateHeadSHAOK := true,
    getPRForBranch := .ok none, createPR := .ok 7 }

/-- A delete environment in which every collaborator call succeeds. -/
def deleteEnvOK : DeleteEnv :=
  { getTrack := .ok (some worktreeTrackEx), worktreeRemoveOK := true,
    devboxDeleteOK := true, pushDeleteOK := true, dbDeleteOK := true }

/-- A worktree create environment in which provisioning succeeds, the
registry insert fails with a uniqueness violation, and the compensating
worktree removal itself fails. -/
def createWtEnvLeak : CreateWtEnv :=
  { remote := "owner/repo", worktreeBase := "/home/u/worktrees", now := 1000,
    fetch := .ok (), getDefaultBranch := .ok "main", branchSHA1 := .ok "a1b2c3d4e5",
    remoteBranchSHA := .error "unknown revision", createBranch := .ok (),
    branchSHA2 := .ok "a1b2c3d4e5", mkdirAll := .ok (), worktreeAdd := .ok (),
    insertTrack := .error "UNIQUE constraint failed: tracks.remote_url, tracks.branch",
    worktreeRemove := .error "fatal: unable to remove worktree" }

/-- The worktree path createWtEnvLeak provisions for branch feature/foo. -/
def leakPath : String := "/home/u/worktrees/feature-foo-a1b2c3d"

/-- The error Ops.NewTrackWorktree surfaces in createWtEnvLeak. -/
def leakMsg : String :=
  "failed to record track in database: UNIQUE constraint failed: tracks.remote_url, tracks.branch"

/-- A worktree create environment in which every call succeeds. -/
def createWtEnvOK : CreateWtEnv :=
  { createWtEnvLeak with
    insertTrack := .ok (),
    worktreeRemove := .ok () }

/-- The registry row createWtEnvOK persists for branch feature/foo. -/
def createdRowEx : Track :=
  { branch := "feature/foo", remoteURL := "owner/repo", headSHA := "a1b2c3d4e5",
    type := .worktree, path := some leakPath, devboxName := none,
    createdAt := 1000, lastAccessed := some 1000 }

/-- A status environment in which every collaborator call succeeds. -/
def statusEnvEx : StatusEnv :=
  { repoPath := "/repo", remote := "owner/repo", now := 1000000,
    isDirty := .ok false, getDefaultBranch := .ok "main",
    aheadBehind := .ok (0, 0), getHeadSHA := .ok "aaa111",
    updateHeadSHAOK := true, getPRForBranch := .ok none }

/-! ### Theorems -/

/-- Claim C5: Sync-Track on a RemoteEnv (devbox) track returns the
UnsupportedForKind error and issues no VersionControl and no
CodeReviewHost call (no fetch, rebase, push, PR lookup or creation). -/
theorem syncTrack_devbox_unsupported (env : SyncEnv) (trk : Track)
    (hget : env.getTrack = .ok (some trk)) (htype : trk.type = .devbox) :
    (syncTrack env).result = .error .unsupportedForKind ∧
    (syncTrack env).events = [Event.dbGetTrack] ∧
    ∀ e ∈ (syncTrack env).events, e.isVersionControl = false ∧ e.isCodeReviewHost = false := by
  simp [syncTrack, hget, htype, Event.isVersionControl, Event.isCodeReviewHost]

/-- Witness for syncTrack_devbox_unsupported at a concrete environment. -/
theorem syncTrack_devbox_unsupported_witness :
    (syncTrack { syncEnvOK with getTrack := .ok (some devboxTrackEx) }).result =
      .error .unsupportedForKind :=
  (syncTrack_devbox_unsupported _ devboxTrackEx rfl rfl).1

/-- Claim C2: Sync-Track on a worktree track whose rebase reports a
conflict returns the zero SyncResult with hasConflicts true and
conflictsPath the track's worktree path (non-empty when the stored path
is), performs no push and no PR lookup or creation, and leaves the
persisted headSHA unchanged (no registry head-SHA write occurs). -/
theorem syncTrack_conflict_aborts (env : SyncEnv) (trk : Track) (p d : String)
    (hget : env.getTrack = .ok (some trk))
    (htype : trk.type = .worktree)
    (hpath : trk.path = some p)
    (hne : p ≠ "")
    (hfetch : env.fetchOK = true)
    (hdb : env.getDefaultBranch = .ok d)
    (hrebase : env.rebase = .ok true) :
    (syncTrack env).result =
      .ok { SyncResult.zero with
            hasConflicts := true,
            conflictsPath := p } ∧
    p ≠ "" ∧
    Event.gitPushForce ∉ (syncTrack env).events ∧
    Event.ghGetPRForBranch ∉ (syncTrack env).events ∧
    Event.ghCreatePR ∉ (syncTrack env).events ∧
    (∀ s, Event.dbUpdateHeadSHA s ∉ (syncTrack env).events) ∧
    (syncTrack env).headWrite = none := by
  simp [syncTrack, hget, htype, hpath, hfetch, hdb, hrebase, hne]

/-- Witness for syncTrack_conflict_aborts at a concrete environment. -/
theorem syncTrack_conflict_aborts_witness :
    (syncTrack { syncEnvOK with rebase := .ok true }).result =
      .ok { SyncResult.zero with
            hasConflicts := true,
            conflictsPath := "/wt/feat-aaa111" } :=
  (syncTrack_conflict_aborts { syncEnvOK with rebase := .ok true }
    worktreeTrackEx "/wt/feat-aaa111" "main" rfl rfl rfl (by decide) rfl rfl rfl).1

/-- Claim C3: Sync-Track on a worktree track where fetch, default-branch
resolution, rebase (no conflict) and push all succeed returns a result
with rebased true, pushed true and hasConflicts false; whenever the
post-rebase tip is read successfully a registry head-SHA update with
that tip is issued, the persisted headSHA becomes the tip when that
write succeeds, and a failing write leaves no registry write but still
the same successful outcome (quantification over updateHeadSHAOK). -/
theorem syncTrack_success_updates (env : SyncEnv) (trk : Track) (p d : String)
    (hget : env.getTrack = .ok (some trk))
    (htype : trk.type = .worktree)
    (hpath : trk.path = some p)
    (hfetch : env.fetchOK = true)
    (hdb : env.getDefaultBranch = .ok d)
    (hrebase : env.rebase = .ok false)
    (hpush : env.pushForceOK = true) :
    (∃ r, (syncTrack env).result = .ok r ∧ r.rebased = true ∧ r.pushed = true ∧
      r.hasConflicts = false) ∧
    (∀ s, env.getHeadSHA = .ok s →
      Event.dbUpdateHeadSHA s ∈ (syncTrack env).events ∧
      (env.updateHeadSHAOK = true → (syncTrack env).headWrite = some s)) ∧
    (env.updateHeadSHAOK = false → (syncTrack env).headWrite = none) := by
  rcases hh : env.getHeadSHA with e1 | s0 <;>
    rcases hpr : env.getPRForBranch with e2 | opr <;>
    first
      | (rcases opr with _ | pr <;>
          rcases hc : env.createPR with e3 | n <;>
          simp [syncTrack, SyncResult.zero, hget, htype, hpath, hfetch, hdb,
            hrebase, hpush, hh, hpr, hc])
      | simp [syncTrack, SyncResult.zero, hget, htype, hpath, hfetch, hdb,
          hrebase, hpush, hh, hpr]

/-- Witness for syncTrack_success_updates at a concrete environment. -/
theorem syncTrack_success_updates_witness :
    ∃ r, (syncTrack syncEnvOK).result = .ok r ∧ r.rebased = true ∧
      r.pushed = true ∧ r.hasConflicts = false :=
  (syncTrack_success_updates syncEnvOK worktreeTrackEx "/wt/feat-aaa111" "main"
    rfl rfl rfl rfl rfl rfl rfl).1

/-- Claim C4: Delete-Track removes the registry row only after the
kind-specific environment was deprovisioned successfully: when the
deprovision call fails the operation returns an error without issuing
any registry delete, and whenever a registry delete is issued the
deprovision call succeeded and its event precedes the registry delete
in the trace. -/
theorem deleteTrack_deprovision_before_unpersist (env : DeleteEnv)
    (deleteRemote : Bool) (trk : Track) (de : Event)
    (hget : env.getTrack = .ok (some trk))
    (hloc : trk.deprovisionEvent = some de) :
    (deprovisionOK env trk = false →
      (∃ e, (deleteTrack env deleteRemote).result = .error e) ∧
      Event.dbDeleteTrack ∉ (deleteTrack env deleteRemote).events) ∧
    (Event.dbDeleteTrack ∈ (deleteTrack env deleteRemote).events →
      deprovisionOK env trk = true ∧
      de ∈ eventsBefore Event.dbDeleteTrack (deleteTrack env deleteRemote).events) := by
  rcases trk with ⟨branch, remoteURL, headSHA, ty, path, devboxName, createdAt, lastAccessed⟩
  rcases ty with _ | _
  · rcases path with _ | p
    · simp [Track.deprovisionEvent] at hloc
    · simp only [Track.deprovisionEvent] at hloc
      simp at hloc
      subst hloc
      rcases hrm : env.worktreeRemoveOK with _ | _ <;>
        rcases hdb : env.dbDeleteOK with _ | _ <;>
        rcases deleteRemote with _ | _ <;>
        simp [deleteTrack, deprovisionOK, eventsBefore, hget, hrm, hdb]
  · rcases devboxName with _ | n
    · simp [Track.deprovisionEvent] at hloc
    · simp only [Track.deprovisionEvent] at hloc
      simp at hloc
      subst hloc
      rcases hrm : env.devboxDeleteOK with _ | _ <;>
        rcases hdb : env.dbDeleteOK with _ | _ <;>
        rcases deleteRemote with _ | _ <;>
        simp [deleteTrack, deprovisionOK, eventsBefore, hget, hrm, hdb]

/-- Witness for deleteTrack_deprovision_before_unpersist at a concrete
environment in which the worktree removal succeeds. -/
theorem deleteTrack_deprovision_before_unpersist_witness :
    deprovisionOK deleteEnvOK worktreeTrackEx = true ∧
    Event.gitWorktreeRemove "/wt/feat-aaa111" ∈
      eventsBefore Event.dbDeleteTrack (deleteTrack deleteEnvOK false).events :=
  (deleteTrack_deprovision_before_unpersist deleteEnvOK false worktreeTrackEx
    (Event.gitWorktreeRemove "/wt/feat-aaa111") rfl rfl).2 (by decide)

/-- Claim C1 counterexample: with provisioning successful, the registry
insert failing, and the compensating worktree removal failing too, the
surfaced error is only the persistence failure and does not contain the
leaked worktree path, contradicting the claim that it reports the
leaked resource's locator. -/
theorem createTrack_leak_locator_not_reported :
    createWtEnvLeak.worktreeAdd = .ok () ∧
    createWtEnvLeak.insertTrack =
      .error "UNIQUE constraint failed: tracks.remote_url, tracks.branch" ∧
    createWtEnvLeak.worktreeRemove = .error "fatal: unable to remove worktree" ∧
    (newTrackWorktree createWtEnvLeak "feature/foo").result = .error leakMsg ∧
    Event.gitWorktreeRemove leakPath ∈
      (newTrackWorktree createWtEnvLeak "feature/foo").events ∧
    mentions leakMsg leakPath = false :=
  ⟨rfl, rfl, rfl, rfl, by decide, by decide⟩

/-- Claim C1 as amended: when the registry insert fails after successful
provisioning, both create operations attempt the compensating
deprovision call and then surface exactly the persistence failure; the
compensation result is discarded, so the surfaced error carries no
information about the compensation or the leaked locator (the statement
holds for every compensation outcome).  The worktree part covers every
invocation that reaches successful provisioning: the branch either
already exists locally or the branch-creation call succeeded. -/
theorem createTrack_compensation_attempted_error_is_persist_only :
    (∀ (env : CreateWtEnv) (branch d sha e : String),
      env.fetch = .ok () →
      env.getDefaultBranch = .ok d →
      (env.branchSHA1.isOk = true ∨ env.createBranch = .ok ()) →
      env.branchSHA2 = .ok sha →
      env.mkdirAll = .ok () →
      env.worktreeAdd = .ok () →
      env.insertTrack = .error e →
      (newTrackWorktree env branch).result =
        .error ("failed to record track in database: " ++ e) ∧
      (newTrackWorktree env branch).inserted = none ∧
      Event.gitWorktreeRemove (env.worktreeBase ++ "/" ++ generateSlug branch sha) ∈
        (newTrackWorktree env branch).events) ∧
    (∀ (env : CreateDbEnv) (branch e : String),
      env.devboxExistsResult = .ok false →
      env.devboxCreate = .ok () →
      env.insertTrack = .error e →
      (newTrackDevbox env branch).result =
        .error ("failed to record track in database: " ++ e) ∧
      (newTrackDevbox env branch).inserted = none ∧
      Event.devboxDelete (slugify branch) ∈ (newTrackDevbox env branch).events) := by
  constructor
  · intro env branch d sha e hf hd hbr h3 hm hw hi
    rcases hbr with h1 | hc
    · simp [newTrackWorktree, hf, hd, h1, h3, hm, hw, hi]
    · rcases h1 : env.branchSHA1 with e1 | s1 <;>
        rcases h2 : env.remoteBranchSHA with e2 | s2 <;>
        simp [newTrackWorktree, hf, hd, h1, h2, hc, h3, hm, hw, hi, Except.isOk,
          Except.toBool]
  · intro env branch e hx hc hi
    simp [newTrackDevbox, hx, hc, hi]

/-- Witness for createTrack_compensation_attempted_error_is_persist_only
at the concrete leak environment. -/
theorem createTrack_compensation_attempted_witness :
    (newTrackWorktree createWtEnvLeak "feature/foo").result =
      .error ("failed to record track in database: " ++
        "UNIQUE constraint failed: tracks.remote_url, tracks.branch") ∧
    (newTrackWorktree createWtEnvLeak "feature/foo").inserted = none ∧
    Event.gitWorktreeRemove
        (createWtEnvLeak.worktreeBase ++ "/" ++ generateSlug "feature/foo" "a1b2c3d4e5") ∈
      (newTrackWorktree createWtEnvLeak "feature/foo").events :=
  createTrack_compensation_attempted_error_is_persist_only.1 createWtEnvLeak
    "feature/foo" "main" "a1b2c3d4e5"
    "UNIQUE constraint failed: tracks.remote_url, tracks.branch"
    rfl rfl (Or.inl rfl) rfl rfl rfl rfl

/-- Claim C9 counterexample: a successful Create-Track persists a row
whose lastAccessed field is already populated (with the creation time),
not null as the claim states. -/
theorem createTrack_lastAccessed_not_null :
    (newTrackWorktree createWtEnvOK "feature/foo").result = .ok () ∧
    (newTrackWorktree createWtEnvOK "feature/foo").inserted = some createdRowEx ∧
    createdRowEx.lastAccessed = some 1000 ∧
    createdRowEx.lastAccessed ≠ none :=
  ⟨rfl, rfl, rfl, by decide⟩

/-- Claim C9 as amended: every row either create operation persists has
lastAccessed set to the creation timestamp, the same instant recorded in
createdAt (Jump and Run-Assistant later refresh it on access). -/
theorem createTrack_lastAccessed_is_creation_time :
    (∀ (env : CreateWtEnv) (branch : String) (t : Track),
      (newTrackWorktree env branch).inserted = some t →
      t.lastAccessed = some env.now ∧ t.createdAt = env.now) ∧
    (∀ (env : CreateDbEnv) (branch : String) (t : Track),
      (newTrackDevbox env branch).inserted = some t →
      t.lastAccessed = some env.now ∧ t.createdAt = env.now) := by
  constructor
  · intro env branch t h
    rcases hf : env.fetch with _ | _ <;>
      rcases hd : env.getDefaultBranch with _ | _ <;>
      rcases h1 : env.branchSHA1 with _ | _ <;>
      rcases h2 : env.remoteBranchSHA with _ | _ <;>
      rcases hc : env.createBranch with _ | _ <;>
      rcases h3 : env.branchSHA2 with _ | _ <;>
      rcases hm : env.mkdirAll with _ | _ <;>
      rcases hw : env.worktreeAdd with _ | _ <;>
      rcases hi : env.insertTrack with _ | _ <;>
      simp [newTrackWorktree, hf, hd, h1, h2, hc, h3, hm, hw, hi, Except.isOk,
        Except.toBool] at h <;>
      simp [← h]
  · intro env branch t h
    rcases hx : env.devboxExistsResult with _ | (_ | _) <;>
      rcases hc : env.devboxCreate with _ | _ <;>
      rcases hi : env.insertTrack with _ | _ <;>
      simp [newTrackDevbox, hx, hc, hi] at h <;>
      simp [← h]

/-- Witness for createTrack_lastAccessed_is_creation_time at the
concrete successful environment. -/
theorem createTrack_lastAccessed_is_creation_time_witness :
    createdRowEx.lastAccessed = some createWtEnvOK.now ∧
    createdRowEx.createdAt = createWtEnvOK.now :=
  createTrack_lastAccessed_is_creation_time.1 createWtEnvOK "feature/foo"
    createdRowEx (by decide)

/-- Claim C6: when the code-review host query for the branch pull
request fails, the returned status has pr, ci and review all absent, and
the call still returns successfully (the source always returns a nil
error). -/
theorem refreshTrackStatus_review_absent_on_pr_failure (env : StatusEnv)
    (trk : Track) (e : String)
    (hpr : env.getPRForBranch = .error e) :
    (refreshTrackStatus env trk).status.pr = none ∧
    (refreshTrackStatus env trk).status.ci = none ∧
    (refreshTrackStatus env trk).status.review = none ∧
    (refreshTrackStatus env trk).errOut = none := by
  simp [refreshTrackStatus, hpr]

/-- Witness for refreshTrackStatus_review_absent_on_pr_failure at a
concrete unreachable code-review host. -/
theorem refreshTrackStatus_review_absent_witness :
    (refreshTrackStatus { statusEnvEx with getPRForBranch := .error "gh: connection refused" }
      worktreeTrackEx).status.pr = none :=
  (refreshTrackStatus_review_absent_on_pr_failure _ worktreeTrackEx
    "gh: connection refused" rfl).1

/-- Claim C8: for a track with a non-null lastAccessed, the returned
status is stale exactly when now - lastAccessed strictly exceeds the
fixed 7-day threshold. -/
theorem refreshTrackStatus_staleness (env : StatusEnv) (trk : Track) (la : Int)
    (hla : trk.lastAccessed = some la) :
    (refreshTrackStatus env trk).status.isStale = decide (env.now - la > staleDuration) := by
  by_cases h : env.now - la > staleDuration <;>
    simp [refreshTrackStatus, hla, h]

/-- Witness for refreshTrackStatus_staleness: a track last accessed
8 days ago is stale, one accessed 1 hour ago is not. -/
theorem refreshTrackStatus_staleness_witness :
    (refreshTrackStatus statusEnvEx
      { worktreeTrackEx with lastAccessed := some (1000000 - 8 * 24 * 60 * 60) }).status.isStale
      = true ∧
    (refreshTrackStatus statusEnvEx
      { worktreeTrackEx with lastAccessed := some (1000000 - 60 * 60) }).status.isStale
      = false :=
  ⟨(refreshTrackStatus_staleness statusEnvEx
      { worktreeTrackEx with lastAccessed := some (1000000 - 8 * 24 * 60 * 60) }
      (1000000 - 8 * 24 * 60 * 60) rfl).trans (by decide),
   (refreshTrackStatus_staleness statusEnvEx
      { worktreeTrackEx with lastAccessed := some (1000000 - 60 * 60) }
      (1000000 - 60 * 60) rfl).trans (by decide)⟩

/-- Claim C10: when the persisted headSHA is the empty string or the
sentinel "unknown", drift detection is skipped entirely: shaMismatch is
false, no registry head-SHA write happens, and no update event is
issued, whatever the live HEAD reads. -/
theorem refreshTrackStatus_sentinel_skips_drift (env : StatusEnv) (trk : Track)
    (hsha : trk.headSHA = "" ∨ trk.headSHA = "unknown") :
    (refreshTrackStatus env trk).status.shaMismatch = false ∧
    (refreshTrackStatus env trk).headWrite = none ∧
    ∀ s, Event.dbUpdateHeadSHA s ∉ (refreshTrackStatus env trk).events := by
  rcases hh : env.getHeadSHA with e | cur <;>
    rcases hsha with h | h <;>
    simp [refreshTrackStatus, hh, h] <;>
    split <;>
    simp

/-- Witness for refreshTrackStatus_sentinel_skips_drift at a concrete
track recorded with the sentinel (as devbox creation records when no
remote SHA resolves) and a differing live HEAD. -/
theorem refreshTrackStatus_sentinel_skips_drift_witness :
    (refreshTrackStatus statusEnvEx
      { worktreeTrackEx with headSHA := "unknown" }).status.shaMismatch = false :=
  (refreshTrackStatus_sentinel_skips_drift statusEnvEx
    { worktreeTrackEx with headSHA := "unknown" } (Or.inr rfl)).1

/-- Claim C7 counterexample: a worktree track whose persisted headSHA is
the sentinel "unknown" and whose live HEAD reads a different value gets
shaDrift false and no registry head-SHA write, contradicting the claim
that every differing live HEAD yields shaDrift true with an update. -/
theorem refreshTrackStatus_drift_not_flagged_for_sentinel :
    Track.type { worktreeTrackEx with headSHA := "unknown" } = .worktree ∧
    statusEnvEx.getHeadSHA = .ok "aaa111" ∧
    Track.headSHA { worktreeTrackEx with headSHA := "unknown" } ≠ "aaa111" ∧
    (refreshTrackStatus statusEnvEx
      { worktreeTrackEx with headSHA := "unknown" }).status.shaMismatch = false ∧
    (refreshTrackStatus statusEnvEx
      { worktreeTrackEx with headSHA := "unknown" }).headWrite = none :=
  ⟨rfl, rfl, by decide, rfl, rfl⟩

/-- Claim C7 as amended: on a worktree track whose working directory is
non-empty and whose persisted headSHA is an actually recorded SHA
(non-empty and not the sentinel "unknown"), a successfully read live
HEAD that differs yields shaMismatch true and an opportunistic registry
head-SHA update with the live value (issued always, persisted when the
write succeeds). -/
theorem refreshTrackStatus_drift_detected (env : StatusEnv) (trk : Track) (cur : String)
    (htype : trk.type = .worktree)
    (hwd : statusWorkDir env trk ≠ "")
    (hhead : env.getHeadSHA = .ok cur)
    (hne1 : trk.headSHA ≠ "")
    (hne2 : trk.headSHA ≠ "unknown")
    (hdiff : cur ≠ trk.headSHA) :
    (refreshTrackStatus env trk).status.shaMismatch = true ∧
    Event.dbUpdateHeadSHA cur ∈ (refreshTrackStatus env trk).events ∧
    (env.updateHeadSHAOK = true → (refreshTrackStatus env trk).headWrite = some cur) ∧
    (env.updateHeadSHAOK = false → (refreshTrackStatus env trk).headWrite = none) := by
  rcases hu : env.updateHeadSHAOK with _ | _ <;>
    simp [refreshTrackStatus, hwd, hhead, hne1, hne2, hdiff, hu]

/-- Witness for refreshTrackStatus_drift_detected at a concrete drifted
track. -/
theorem refreshTrackStatus_drift_detected_witness :
    (refreshTrackStatus { statusEnvEx with getHeadSHA := .ok "bbb222" }
      worktreeTrackEx).status.shaMismatch = true :=
  (refreshTrackStatus_drift_detected { statusEnvEx with getHeadSHA := .ok "bbb222" }
    worktreeTrackEx "bbb222" rfl (by decide) rfl (by decide) (by decide) (by decide)).1

end Trak
